import Mathlib

/-!
Shallow embedding of the core-models repository: the legacy choice constants
(src/legacy/constants.py), the future-schema ConnectionNode model
(src/future/models.py), the destination-store initialisation
(src/future/main.py) and the row-copy migration (src/time_travel/main.py).
-/

/-- Python dict built from an association list: on duplicate keys the later
entry wins, as in dict([(a, b), ...]). Lookup returns none for a missing key. -/
def pyDictGet {α β : Type} [DecidableEq α] (l : List (α × β)) (k : α) : Option β :=
  (l.reverse.find? (fun p => p.1 = k)).map (fun p => p.2)

/-- legacy.constants.reversed_dict: swaps each (code, label) pair to
(label, code), building the reverse lookup table. -/
def reversed_dict {α β : Type} (d : List (α × β)) : List (β × α) :=
  d.map (fun p => (p.2, p.1))

/-- Constants.FRICTION_TYPE_CHOICES. -/
def FRICTION_TYPE_CHOICES : List (Int × String) :=
  [(1, "chezy [m^(1/2)/s]"),
   (4, "manning nm [s/m^(1/2)]"),
   (999, "nikuradse (White-Coolbrook) [mm]")]

/-- Constants.MATERIAL_TYPE_CHOICES. -/
def MATERIAL_TYPE_CHOICES : List (Int × String) :=
  [(0, "concrete"),
   (1, "pvc"),
   (2, "stoneware"),
   (3, "cast-iron"),
   (4, "brickwork"),
   (5, "hpe"),
   (6, "hpde"),
   (7, "sheet-iron"),
   (8, "steel")]

/-- Constants.MATERIAL_ROUGHNESS: nested dict keyed by friction type then
material type; numeric literals carried exactly as rationals. -/
def MATERIAL_ROUGHNESS : List (Int × List (Int × ℚ)) :=
  [(1, [(0, 47), (1, 62), (2, 60), (3, 50), (4, 42), (5, 62), (6, 62), (7, 49), (8, 52)]),
   (4, [(0, 145/10000), (1, 110/10000), (2, 115/10000), (3, 135/10000),
        (4, 160/10000), (5, 110/10000), (6, 110/10000), (7, 135/10000), (8, 130/10000)]),
   (999, [(0, 3), (1, 4/10), (2, 5/10), (3, 2), (4, 5), (5, 4/10), (6, 4/10), (7, 2), (8, 3/2)])]

/-- UrbanConstants.MANHOLE_INDICATOR_CHOICES. -/
def MANHOLE_INDICATOR_CHOICES : List (Int × String) :=
  [(0, "manhole"), (1, "outlet"), (2, "pumpstation")]

/-- UrbanConstants.MANHOLE_INDICATOR_LOOKUP. -/
def MANHOLE_INDICATOR_LOOKUP : List (String × Int) :=
  reversed_dict MANHOLE_INDICATOR_CHOICES

/-- UrbanConstants.MANHOLE_CALCULATION_TYPE_CHOICES. -/
def MANHOLE_CALCULATION_TYPE_CHOICES : List (Int × String) :=
  [(0, "embedded"), (1, "isolated"), (2, "connected")]

/-- UrbanConstants.MANHOLE_CALCULATION_TYPE_LOOKUP. -/
def MANHOLE_CALCULATION_TYPE_LOOKUP : List (String × Int) :=
  reversed_dict MANHOLE_CALCULATION_TYPE_CHOICES

/-- UrbanConstants.SHAPE_TYPE_CHOICES (codes 5 and 7 are commented out in the
source). -/
def SHAPE_TYPE_CHOICES : List (Int × String) :=
  [(1, "rectangle"), (2, "circle"), (3, "egg"), (4, "yz"), (6, "tabulated_trapezium")]

/-- UrbanConstants.SHAPE_MAP = dict(SHAPE_TYPE_CHOICES): the association list
with later-wins lookup semantics. -/
def SHAPE_MAP : List (Int × String) := SHAPE_TYPE_CHOICES

/-- UrbanConstants.SHAPE_MAP_LOOKUP = reversed_dict(SHAPE_MAP.items()). -/
def SHAPE_MAP_LOOKUP : List (String × Int) := reversed_dict SHAPE_MAP

/-- A legacy GEOS geometry value: the coordinate reference identifier and the
well-known-text body of the geometry. -/
structure Geometry where
  srid : Int
  wkt : String
deriving DecidableEq, Repr

/-- GeoDjango's ewkt property: the SRID-qualified well-known-text string of the
geometry, SRID=<srid>;<wkt>. -/
def Geometry.ewkt (g : Geometry) : String :=
  "SRID=" ++ toString g.srid ++ ";" ++ g.wkt

/-- A Python attribute value as it occurs in a model instance's __dict__:
None, an int, a float (carried exactly as a rational), a string, or a geometry
attribute. Value.geom none stands for a geometry attribute whose value is
missing or malformed, so that converting it to text raises. -/
inductive Value where
  | null
  | int (i : Int)
  | rat (q : ℚ)
  | str (s : String)
  | geom (g : Option Geometry)
deriving DecidableEq, Repr

/-- Errors a migration run can surface. importError models Python's
ImportError for an unresolvable import; typeError models the TypeError the
SQLAlchemy constructor raises on an unexpected keyword. The names
schemaMismatch and geometryConversion are modelled from the spec: the spec's
error taxonomy (SchemaMismatchError, GeometryConversionError) names no class
defined under src/, so they label the two failure points of the code — the
field projection rejecting a field the legacy model lacks, and the ewkt
conversion failing on a bad geometry. -/
inductive MigErr where
  | importError
  | schemaMismatch
  | geometryConversion
  | typeError
deriving DecidableEq, Repr

/-- Whether the character list starting here begins with the pattern. -/
def listStarts : List Char → List Char → Bool
  | [], _ => true
  | _ :: _, [] => false
  | p :: ps, c :: cs => p == c && listStarts ps cs

/-- Whether the pattern occurs somewhere in the character list. -/
def listHasSub (pat : List Char) : List Char → Bool
  | [] => listStarts pat []
  | c :: cs => listStarts pat (c :: cs) || listHasSub pat cs

/-- Python's substring test: pat in s. -/
def strContainsSub (s pat : String) : Bool :=
  listHasSub pat.toList s.toList

/-- Python's str.startswith. -/
def strStarts (s pat : String) : Bool :=
  listStarts pat.toList s.toList

/-- A model instance's __dict__: attribute names to values, in insertion
order. -/
abbrev Row := List (String × Value)

/-- The future-schema ConnectionNode (src/future/models.py): columns id,
storage_area, initial_waterlevel, the_geom. Attributes a constructor call did
not set are none. -/
structure ConnectionNode where
  id : Option Value
  storage_area : Option Value
  initial_waterlevel : Option Value
  the_geom : Option Value
deriving DecidableEq, Repr

/-- ConnectionNode.__table__.columns.keys(): the declared column names in
declaration order. -/
def connectionNodeColumns : List String :=
  ["id", "storage_area", "initial_waterlevel", "the_geom"]

/-- The SQLAlchemy declarative constructor ConnectionNode(**kwargs): each
keyword is assigned to its column attribute with no validation of values,
enumerations or required fields; a keyword that names no declared column
raises TypeError. -/
def ConnectionNode.fromKwargs (kwargs : Row) : Except MigErr ConnectionNode :=
  if kwargs.all (fun p => connectionNodeColumns.contains p.1) then
    .ok { id := pyDictGet kwargs "id",
          storage_area := pyDictGet kwargs "storage_area",
          initial_waterlevel := pyDictGet kwargs "initial_waterlevel",
          the_geom := pyDictGet kwargs "the_geom" }
  else
    .error .typeError

/-- State of the destination (future) store: created tables, whether spatial
metadata is initialised, the committed ConnectionNode rows, and how many
commits have been issued. -/
structure DbState where
  tables : List String
  spatialMeta : Bool
  rows : List ConnectionNode
  commits : Nat
deriving DecidableEq, Repr

/-- The tables declared on future.models.Base: only connection_nodes. -/
def futureTables : List String := ["connection_nodes"]

/-- future.main._create_db: connect, initialise spatial metadata, then
Base.metadata.create_all, which with its default check-first semantics creates
only the declared tables that are absent and touches no existing table or
row. -/
def _create_db (st : DbState) : DbState :=
  { st with
    spatialMeta := true,
    tables := st.tables ++ futureTables.filter (fun t => !(st.tables.contains t)) }

/-- future.main.create_template_db: connect, initialise spatial metadata, then
Base.metadata.create_all — the same operations as _create_db. -/
def create_template_db (st : DbState) : DbState :=
  { st with
    spatialMeta := true,
    tables := st.tables ++ futureTables.filter (fun t => !(st.tables.contains t)) }

/-- The names future.main defines at module level. -/
def futureMainDefs : List String :=
  ["get_db", "get_connection_node", "_create_db", "create_template_db"]

/-- The legacy store: the field names of the V2ConnectionNode model and its
rows (each row a __dict__ of field values). -/
structure LegacyStore where
  fields : List String
  rows : List Row
deriving Repr

/-- The fields of legacy V2ConnectionNode (src/legacy/models.py): the implicit
primary key id, storage_area, initial_waterlevel, code, the_geom,
the_geom_linestring. -/
def v2ConnectionNodeFields : List String :=
  ["id", "storage_area", "initial_waterlevel", "code", "the_geom", "the_geom_linestring"]

/-- The __dict__ of a V2ConnectionNode instance with the given field values. -/
def v2Row (i sa iw cv gv lsv : Value) : Row :=
  [("id", i), ("storage_area", sa), ("initial_waterlevel", iw),
   ("code", cv), ("the_geom", gv), ("the_geom_linestring", lsv)]

/-- The __dict__ of one instance loaded through QuerySet.only(fields): the
internal _state attribute plus only the requested fields. -/
def projectEntry (fields : List String) (r : Row) : Row :=
  ("_state", Value.null) :: r.filter (fun p => fields.contains p.1)

/-- Django QuerySet.only(*fields) evaluated over the store: raises (FieldError)
when a requested field is not a field of the model, otherwise yields every row
restricted to the requested fields. -/
def onlyFields (store : LegacyStore) (fields : List String) : Except MigErr (List Row) :=
  if fields.all (fun f => store.fields.contains f) then
    .ok (store.rows.map (projectEntry fields))
  else
    .error .schemaMismatch

/-- One iteration of the kwargs loop in swap_node_data: a field whose name
contains geom is replaced by its ewkt string (raising when the geometry value
cannot be converted); any other field passes through unchanged. -/
def convertItem (k : String) (v : Value) : Except MigErr Value :=
  if strContainsSub k "geom" then
    match v with
    | .geom (some g) => .ok (.str g.ewkt)
    | _ => .error .geometryConversion
  else
    .ok v

/-- The kwargs built from one legacy instance's __dict__ by the loop in
swap_node_data: keys starting with an underscore are skipped, geometry fields
are converted to ewkt text, other fields pass through; the first failing
conversion aborts. -/
def convertEntry : Row → Except MigErr Row
  | [] => .ok []
  | (k, v) :: rest =>
    if strStarts k "_" then convertEntry rest
    else do
      let v2 ← convertItem k v
      let tail ← convertEntry rest
      .ok ((k, v2) :: tail)

/-- One legacy instance taken to a future ConnectionNode: build kwargs, then
call the constructor. -/
def convertRow (r : Row) : Except MigErr ConnectionNode :=
  (convertEntry r).bind ConnectionNode.fromKwargs

/-- The loop of swap_node_data over all loaded instances, accumulating the
constructed nodes; the first failure aborts the run. -/
def convertRows : List Row → Except MigErr (List ConnectionNode)
  | [] => .ok []
  | r :: rest =>
    match convertRow r with
    | .error e => .error e
    | .ok node =>
      match convertRows rest with
      | .error e => .error e
      | .ok tail => .ok (node :: tail)

/-- ConnectionNode.__table__.columns.keys() as used by swap_node_data. -/
def future_fields : List String := connectionNodeColumns

/-- Everything swap_node_data prepares before touching the session: the
projected legacy rows converted to future ConnectionNode values. -/
def preparedNodes (legacy : LegacyStore) : Except MigErr (List ConnectionNode) :=
  (onlyFields legacy future_fields).bind convertRows

/-- time_travel.main.add_nodes: one session.add_all of every node followed by
a single commit. -/
def add_nodes (nodes : List ConnectionNode) (st : DbState) : DbState :=
  { st with rows := st.rows ++ nodes, commits := st.commits + 1 }

/-- The body of swap_node_data as written, assuming its create_db import had
resolved to the destination-initialisation function: initialise the
destination, load the legacy rows projected to the future columns, convert
them all, then hand them to add_nodes; any failure surfaces unchanged with
nothing added or committed. -/
def swapNodeDataBody (legacy : LegacyStore) (st : DbState) :
    DbState × Except MigErr Unit :=
  let st1 := create_template_db st
  match preparedNodes legacy with
  | .error e => (st1, .error e)
  | .ok nodes => (add_nodes nodes st1, .ok ())

/-- time_travel.main.swap_node_data as importable: the module does
from future.main import create_db, so the body only ever runs if that name
resolves among future.main's definitions; otherwise the import machinery
raises before any row is read or written. -/
def swap_node_data (legacy : LegacyStore) (st : DbState) :
    DbState × Except MigErr Unit :=
  if futureMainDefs.contains "create_db" then swapNodeDataBody legacy st
  else (st, .error .importError)

/-- The legacy V2CrossSectionDefinition model (src/legacy/models.py): shape
(declared with choices=SHAPE_TYPE_CHOICES), width, height, code. -/
structure V2CrossSectionDefinition where
  shape : Option Int
  width : Option String
  height : Option String
  code : String
deriving DecidableEq, Repr

/-- The Django model constructor for V2CrossSectionDefinition: it assigns the
given values to the fields as-is; the choices declared on shape are metadata
for forms and full_clean, and no check runs at construction time. -/
def V2CrossSectionDefinition.new (shape : Option Int) (width : Option String)
    (height : Option String) (code : String) : V2CrossSectionDefinition :=
  { shape := shape, width := width, height := height, code := code }

/-- The field values of one legacy V2ConnectionNode row whose geometry value is
present and convertible. -/
structure V2NodeData where
  id : Value
  storage_area : Value
  initial_waterlevel : Value
  code : Value
  geom : Geometry
  linestring : Value
deriving Repr

/-- The __dict__ of such a row. -/
def V2NodeData.rowOf (d : V2NodeData) : Row :=
  v2Row d.id d.storage_area d.initial_waterlevel d.code (.geom (some d.geom)) d.linestring

/-- The future ConnectionNode the migration is expected to build from such a
row: the shared non-geometry fields unchanged, the geometry as ewkt text. -/
def V2NodeData.nodeOf (d : V2NodeData) : ConnectionNode :=
  { id := some d.id, storage_area := some d.storage_area,
    initial_waterlevel := some d.initial_waterlevel,
    the_geom := some (.str d.geom.ewkt) }

/-- A well-typed legacy store holding the given rows. -/
def legacyStoreOf (ds : List V2NodeData) : LegacyStore :=
  { fields := v2ConnectionNodeFields, rows := ds.map V2NodeData.rowOf }

/-- The spec's example row: id=7, storage_area=12.5, initial_waterlevel=0.8,
the_geom a point with SRID 4326. -/
def exampleNodeData : V2NodeData :=
  { id := .int 7, storage_area := .rat (25/2), initial_waterlevel := .rat (4/5),
    code := .str "1", geom := { srid := 4326, wkt := "POINT (4.9 52.37)" },
    linestring := .geom none }

/-- An empty destination store, for concrete runs. -/
def emptyDb : DbState :=
  { tables := [], spatialMeta := false, rows := [], commits := 0 }

/-- A legacy row whose geometry value is malformed, so its ewkt conversion
fails. -/
def badGeomRow : Row := v2Row (.int 1) .null .null (.str "a") (.geom none) .null

/-- A legacy store holding only the malformed-geometry row. -/
def badGeomLegacy : LegacyStore := { fields := v2ConnectionNodeFields, rows := [badGeomRow] }

/-- A legacy store whose model lacks fields the new schema requires. -/
def narrowLegacy : LegacyStore := { fields := ["id"], rows := [] }

theorem convertRows_map_nodeOf (ds : List V2NodeData) :
    convertRows (ds.map (fun d => projectEntry future_fields d.rowOf)) =
      .ok (ds.map V2NodeData.nodeOf) := by
  induction ds with
  | nil => rfl
  | cons d ds ih =>
    have h : convertRow (projectEntry future_fields d.rowOf) = .ok d.nodeOf := rfl
    simp only [List.map_cons, convertRows, h, ih]

theorem convertRows_append_error (as bs : List Row) (ns : List ConnectionNode) (e : MigErr)
    (h1 : convertRows as = .ok ns) (h2 : convertRows bs = .error e) :
    convertRows (as ++ bs) = .error e := by
  induction as generalizing ns with
  | nil => simpa using h2
  | cons a as ih =>
    rw [List.cons_append]
    cases ha : convertRow a with
    | error e2 => simp [convertRows, ha] at h1
    | ok node =>
      cases has : convertRows as with
      | error e2 => simp [convertRows, ha, has] at h1
      | ok tail => simp [convertRows, ha, ih tail has]

theorem preparedNodes_of_data (ds : List V2NodeData) :
    preparedNodes (legacyStoreOf ds) = .ok (ds.map V2NodeData.nodeOf) := by
  unfold preparedNodes
  have honly : onlyFields (legacyStoreOf ds) future_fields =
      .ok ((ds.map V2NodeData.rowOf).map (projectEntry future_fields)) := rfl
  rw [honly, List.map_map]
  exact convertRows_map_nodeOf ds

/-- Claim C1: for every legacy V2ConnectionNode row the migration constructs a
new-schema ConnectionNode whose shared non-geometry fields carry the legacy
values unchanged and whose geometry field carries the SRID-qualified
well-known-text (ewkt) string of the legacy geometry; in particular the row
with id=7, storage_area=12.5, initial_waterlevel=0.8 and a SRID-4326 point
maps to the node with those values and the point's ewkt string. -/
theorem migration_copies_shared_fields_ewkt (ds : List V2NodeData) (st : DbState) :
    swapNodeDataBody (legacyStoreOf ds) st =
      (add_nodes (ds.map V2NodeData.nodeOf) (create_template_db st), .ok ()) ∧
    convertRow (projectEntry future_fields exampleNodeData.rowOf) =
      .ok { id := some (.int 7), storage_area := some (.rat (25/2)),
            initial_waterlevel := some (.rat (4/5)),
            the_geom := some (.str "SRID=4326;POINT (4.9 52.37)") } := by
  constructor
  · simp [swapNodeDataBody, preparedNodes_of_data]
  · rfl

/-- Claim C2: swap_node_data imports create_db from future.main, but
future.main defines no such name, so for every legacy dataset and destination
state the run fails with the import error before any row is read or inserted,
leaving the destination exactly as it was. -/
theorem swap_node_data_import_never_resolves (legacy : LegacyStore) (st : DbState) :
    swap_node_data legacy st = (st, .error .importError) ∧
    futureMainDefs.contains "create_db" = false :=
  ⟨rfl, rfl⟩

/-- Claim C3: the migration body inserts all constructed rows with a single
commit, and it is atomic: either every converted row is appended in one
commit, or some conversion failed and the destination keeps its original rows
and commit count. -/
theorem migration_single_commit_atomic (legacy : LegacyStore) (st : DbState) :
    (∃ nodes, preparedNodes legacy = .ok nodes ∧
        swapNodeDataBody legacy st = (add_nodes nodes (create_template_db st), .ok ()) ∧
        (add_nodes nodes (create_template_db st)).rows = st.rows ++ nodes ∧
        (add_nodes nodes (create_template_db st)).commits = st.commits + 1) ∨
    (∃ e, preparedNodes legacy = .error e ∧
        swapNodeDataBody legacy st = (create_template_db st, .error e) ∧
        (create_template_db st).rows = st.rows ∧
        (create_template_db st).commits = st.commits) := by
  cases hp : preparedNodes legacy with
  | ok nodes =>
    exact Or.inl ⟨nodes, rfl, by simp [swapNodeDataBody, hp], rfl, rfl⟩
  | error e =>
    exact Or.inr ⟨e, rfl, by simp [swapNodeDataBody, hp], rfl, rfl⟩

/-- Claim C4: a legacy model missing a field the new schema requires fails the
whole migration with the schema-mismatch error; a row whose geometry cannot be
converted fails it with the error raised there, surfaced unchanged, regardless
of how many rows follow (no per-row retry); in both cases the destination
keeps its rows and commit count. -/
theorem migration_errors_fatal_surfaced (st : DbState) :
    (∀ legacy : LegacyStore,
        (future_fields.all (fun f => legacy.fields.contains f)) = false →
        swapNodeDataBody legacy st = (create_template_db st, .error .schemaMismatch)) ∧
    (∀ (pre post : List Row) (r : Row) (ns : List ConnectionNode) (e : MigErr),
        convertRows (pre.map (projectEntry future_fields)) = .ok ns →
        convertRow (projectEntry future_fields r) = .error e →
        swapNodeDataBody { fields := v2ConnectionNodeFields, rows := pre ++ r :: post } st =
          (create_template_db st, .error e)) ∧
    (create_template_db st).rows = st.rows ∧
    (create_template_db st).commits = st.commits := by
  refine ⟨?_, ?_, rfl, rfl⟩
  · intro legacy hall
    have hO : onlyFields legacy future_fields = .error .schemaMismatch := by
      unfold onlyFields
      rw [hall]
      simp
    have hP : preparedNodes legacy = .error .schemaMismatch := by
      unfold preparedNodes
      rw [hO]
      rfl
    simp [swapNodeDataBody, hP]
  · intro pre post r ns e hpre hr
    have hconv : convertRows ((pre ++ r :: post).map (projectEntry future_fields)) =
        .error e := by
      rw [List.map_append, List.map_cons]
      exact convertRows_append_error _ _ ns e hpre (by simp [convertRows, hr])
    have hP : preparedNodes { fields := v2ConnectionNodeFields, rows := pre ++ r :: post } =
        .error e := by
      unfold preparedNodes
      have hO : onlyFields { fields := v2ConnectionNodeFields, rows := pre ++ r :: post }
          future_fields = .ok ((pre ++ r :: post).map (projectEntry future_fields)) := rfl
      rw [hO]
      exact hconv
    simp [swapNodeDataBody, hP]

/-- Witness for C4: a store lacking the required fields fails with the
schema-mismatch error, and a store whose only row has a malformed geometry
fails with the geometry-conversion error, each leaving the destination rows
untouched. -/
theorem migration_errors_fatal_surfaced_witness :
    swapNodeDataBody narrowLegacy emptyDb =
      (create_template_db emptyDb, .error .schemaMismatch) ∧
    swapNodeDataBody badGeomLegacy emptyDb =
      (create_template_db emptyDb, .error .geometryConversion) := by
  constructor
  · exact (migration_errors_fatal_surfaced emptyDb).1 narrowLegacy rfl
  · exact (migration_errors_fatal_surfaced emptyDb).2.1 [] [] badGeomRow []
      .geometryConversion rfl rfl

/-- Counterexample to C5 as stated: constructing V2CrossSectionDefinition with
shape 42, a value outside its declared choice set, succeeds and stores 42, and
constructing ConnectionNode while omitting the required the_geom field also
succeeds — no validation failure occurs at construction time. -/
theorem construction_validation_counterexample :
    V2CrossSectionDefinition.new (some 42) none none "x" =
      { shape := some 42, width := none, height := none, code := "x" } ∧
    (SHAPE_TYPE_CHOICES.all (fun p => p.1 != 42)) = true ∧
    ConnectionNode.fromKwargs [("id", .int 7)] =
      .ok { id := some (.int 7), storage_area := none,
            initial_waterlevel := none, the_geom := none } :=
  ⟨rfl, rfl, rfl⟩

/-- Claim C5 as amended: construction is permissive — the Django constructor
stores whatever field values it is given, enumerations included, and the
SQLAlchemy constructor accepts any keyword set drawn from the declared
columns, leaving omitted fields (required ones included) unset; declared
choice sets and nullability are not enforced at construction time. -/
theorem construction_is_permissive (s : Option Int) (w h : Option String) (c : String) :
    V2CrossSectionDefinition.new s w h c =
      { shape := s, width := w, height := h, code := c } ∧
    ∀ kwargs : Row, (kwargs.all (fun p => connectionNodeColumns.contains p.1)) = true →
      ConnectionNode.fromKwargs kwargs =
        .ok { id := pyDictGet kwargs "id",
              storage_area := pyDictGet kwargs "storage_area",
              initial_waterlevel := pyDictGet kwargs "initial_waterlevel",
              the_geom := pyDictGet kwargs "the_geom" } := by
  refine ⟨rfl, ?_⟩
  intro kwargs hk
  unfold ConnectionNode.fromKwargs
  rw [hk]
  simp

/-- Witness for the amended C5: a ConnectionNode built from only a
storage_area keyword, with every other field (the required geometry included)
left unset. -/
theorem construction_is_permissive_witness :
    ConnectionNode.fromKwargs [("storage_area", .rat 1)] =
      .ok { id := none, storage_area := some (.rat 1),
            initial_waterlevel := none, the_geom := none } :=
  ((construction_is_permissive none none none "").2 [("storage_area", .rat 1)] rfl).trans
    (by rfl)

/-- Claim C6: the kwargs handed to the new-schema constructor carry exactly
the new schema's declared column set; the legacy-only fields code and
the_geom_linestring, though present on the legacy model, are dropped silently
and the construction still succeeds. -/
theorem migration_drops_legacy_only_fields (i sa iw cv : Value) (g : Geometry) (lsv : Value) :
    (convertEntry (projectEntry future_fields (v2Row i sa iw cv (.geom (some g)) lsv))).map
        (fun kw => kw.map Prod.fst) = .ok future_fields ∧
    (future_fields.contains "code") = false ∧
    (future_fields.contains "the_geom_linestring") = false ∧
    (v2ConnectionNodeFields.contains "code") = true ∧
    (v2ConnectionNodeFields.contains "the_geom_linestring") = true ∧
    convertRow (projectEntry future_fields (v2Row i sa iw cv (.geom (some g)) lsv)) =
      .ok { id := some i, storage_area := some sa, initial_waterlevel := some iw,
            the_geom := some (.str g.ewkt) } :=
  ⟨rfl, rfl, rfl, rfl, rfl, rfl⟩

/-- Claim C7: destination schema initialisation is idempotent — running
create_template_db twice yields the same state as running it once, it never
touches existing rows or the commit count, and it ensures the declared
connection_nodes table exists. -/
theorem schema_init_idempotent (st : DbState) :
    create_template_db (create_template_db st) = create_template_db st ∧
    (create_template_db st).rows = st.rows ∧
    (create_template_db st).commits = st.commits ∧
    ((create_template_db st).tables.contains "connection_nodes") = true := by
  by_cases h : "connection_nodes" ∈ st.tables
  · simp [create_template_db, futureTables, List.filter, h]
  · simp [create_template_db, futureTables, List.filter, h]

/-- Claim C10: the private helper _create_db and the public create_template_db
perform the identical sequence of operations, so they send every destination
state to the same resulting state. -/
theorem create_db_helpers_extensionally_equal (st : DbState) :
    _create_db st = create_template_db st :=
  rfl
/-- Claim C8: for every (code, label) pair of the three choice tables that have
derived reverse lookups, looking the label up in the reverse map returns the
code and looking the code up in the forward map returns the label. -/
theorem choices_labels_roundtrip :
    (MANHOLE_INDICATOR_CHOICES.all (fun p =>
        pyDictGet MANHOLE_INDICATOR_LOOKUP p.2 == some p.1 &&
        pyDictGet MANHOLE_INDICATOR_CHOICES p.1 == some p.2)) = true ∧
    (MANHOLE_CALCULATION_TYPE_CHOICES.all (fun p =>
        pyDictGet MANHOLE_CALCULATION_TYPE_LOOKUP p.2 == some p.1 &&
        pyDictGet MANHOLE_CALCULATION_TYPE_CHOICES p.1 == some p.2)) = true ∧
    (SHAPE_TYPE_CHOICES.all (fun p =>
        pyDictGet SHAPE_MAP_LOOKUP p.2 == some p.1 &&
        pyDictGet SHAPE_MAP p.1 == some p.2)) = true := by
  decide

/-- Claim C9: MATERIAL_ROUGHNESS is total over the declared enumerations and
has no keys outside them: its outer keys are exactly the friction type codes
and every inner table's keys are exactly the material type codes. -/
theorem material_roughness_total :
    MATERIAL_ROUGHNESS.map Prod.fst = FRICTION_TYPE_CHOICES.map Prod.fst ∧
    (MATERIAL_ROUGHNESS.all (fun fr =>
        fr.2.map Prod.fst == MATERIAL_TYPE_CHOICES.map Prod.fst)) = true := by
  decide
